import Mathlib

/-!
Verification of `signaller.py`, a small diagnostic utility that installs a
shared handler for six fatal-by-default OS signals, logs each received signal
to two sinks (stderr and a log file), and either continues or exits based on a
continue-on list parsed from the command line.

The embedding is shallow: Python's `signal.Signals` name table is embedded as
an association list of (name, number) pairs for the Linux host platform;
the two log sinks are lists of flushed lines plus a write buffer; the signal
handler and the main startup/loop are explicit state-passing functions.
Asynchronous signal delivery is modelled by an explicit schedule of run
events (heartbeat ticks and signal deliveries), both in the window between
handler registration and the pid announcement and during the main loop.
Python's enum repr in the continue-set announcement is abstracted to the
numeric list rendering; wall-clock times are opaque strings.
-/

namespace Signaller

/-- Numeric signal values on the Linux host platform (`signal` module). -/
def SIGHUP : Nat := 1

def SIGINT : Nat := 2

def SIGQUIT : Nat := 3

def SIGABRT : Nat := 6

def SIGUSR1 : Nat := 10

def SIGPIPE : Nat := 13

def SIGTERM : Nat := 15

/-- The OS signal name table, Python's `signal.Signals` on Linux: canonical
names first (so that value lookup `signal.Signals(n).name` finds the
canonical name), then the alias member names, which `signal.Signals[name]`
also accepts. -/
def signalTable : List (String × Nat) :=
  [("SIGHUP", 1), ("SIGINT", 2), ("SIGQUIT", 3), ("SIGILL", 4), ("SIGTRAP", 5),
   ("SIGABRT", 6), ("SIGBUS", 7), ("SIGFPE", 8), ("SIGKILL", 9), ("SIGUSR1", 10),
   ("SIGSEGV", 11), ("SIGUSR2", 12), ("SIGPIPE", 13), ("SIGALRM", 14), ("SIGTERM", 15),
   ("SIGSTKFLT", 16), ("SIGCHLD", 17), ("SIGCONT", 18), ("SIGSTOP", 19), ("SIGTSTP", 20),
   ("SIGTTIN", 21), ("SIGTTOU", 22), ("SIGURG", 23), ("SIGXCPU", 24), ("SIGXFSZ", 25),
   ("SIGVTALRM", 26), ("SIGPROF", 27), ("SIGWINCH", 28), ("SIGIO", 29), ("SIGPWR", 30),
   ("SIGSYS", 31), ("SIGRTMIN", 34), ("SIGRTMAX", 64),
   ("SIGIOT", 6), ("SIGCLD", 17), ("SIGPOLL", 29)]

/-- Python's `str.upper()` restricted to the ASCII tokens at hand: uppercase
every character. -/
def strUpper (s : String) : String := ⟨s.data.map Char.toUpper⟩

/-- Name-to-number lookup, `signal.Signals[name]`; `none` is the uncaught
KeyError. -/
def signalLookup (name : String) : Option Nat :=
  (signalTable.find? (fun p => p.1 = name)).map (fun p => p.2)

/-- Number-to-canonical-name lookup, `signal.Signals(signum).name`. -/
def signalName (signum : Nat) : Option String :=
  (signalTable.find? (fun p => p.2 = signum)).map (fun p => p.1)

/-- `fatal_sigs = [signal.SIGINT, signal.SIGTERM, signal.SIGQUIT, signal.SIGHUP,
signal.SIGPIPE, signal.SIGABRT]` (signaller.py line 10). -/
def fatal_sigs : List Nat := [SIGINT, SIGTERM, SIGQUIT, SIGHUP, SIGPIPE, SIGABRT]

/-- The list comprehension's traversal: maps `f` left to right, failing at the
first token whose lookup raises (the comprehension's uncaught KeyError). -/
def mapOption {α β : Type} (f : α → Option β) : List α → Option (List β)
  | [] => some []
  | a :: l =>
    match f a with
    | none => none
    | some b =>
      match mapOption f l with
      | none => none
      | some bs => some (b :: bs)

/-- Lines 30-34 of signaller.py: `continue_args_list = args[1:]` is the
argument here; if it is empty it is replaced by `["SIGINT"]`; then
`continue_on_sigs = [ signal.Signals[signame.upper()] for signame in
continue_args_list if signame != "" ]`. -/
def parseContinueSigs (args : List String) : Option (List Nat) :=
  let continueArgsList := if args = [] then ["SIGINT"] else args
  mapOption (fun s => signalLookup (strUpper s))
    (continueArgsList.filter (fun s => s ≠ ""))

/-- One log sink: the lines already flushed to the OS, and the write buffer. -/
structure Sink where
  flushed : List String
  buffer : List String
deriving Repr, DecidableEq

/-- `f.write(line)`. -/
def Sink.write (s : Sink) (line : String) : Sink :=
  { s with buffer := s.buffer ++ [line] }

/-- `f.flush()`. -/
def Sink.flush (s : Sink) : Sink :=
  { flushed := s.flushed ++ s.buffer, buffer := [] }

/-- The two log sinks: `sys.stderr` and `signaller_log`. -/
structure Sinks where
  stderr : Sink
  log : Sink
deriving Repr, DecidableEq

/-- Both sinks at process start: `signaller.log` is opened in truncate-write
mode, so both start empty. -/
def initialSinks : Sinks := ⟨⟨[], []⟩, ⟨[], []⟩⟩

/-- The line `print_msg` builds for a message: `'signaller: ' + msg + "\n"`. -/
def msgLine (msg : String) : String := "signaller: " ++ msg ++ "\n"

/-- `print_msg` (signaller.py lines 13-16): for each of the two sinks, write
the prefixed line and flush immediately. -/
def print_msg (msg : String) (s : Sinks) : Sinks :=
  { stderr := (s.stderr.write (msgLine msg)).flush,
    log := (s.log.write (msgLine msg)).flush }

/-- The extra flushes `sys.stderr.flush(); signaller_log.flush()` used by the
handler and the main loop. -/
def flushBoth (s : Sinks) : Sinks :=
  { stderr := s.stderr.flush, log := s.log.flush }

/-- The body of the handler's first log line. -/
def handlerMsg (signame : String) (signum : Nat) (t : String) : String :=
  "signal handler called with signal " ++ signame ++ " (" ++ toString signum
    ++ ") at " ++ t

/-- `handler` (signaller.py lines 18-25) acting on the sinks, given the
continue-on list `cs`, the delivered signal number and the formatted
wall-clock time `t`. Returns the updated sinks and `some 1` when the handler
runs `sys.exit(1)`, `none` when it returns normally; the outer `none` is the
ValueError of `signal.Signals(signum)` on a number with no name. -/
def handlerStep (cs : List Nat) (signum : Nat) (t : String) (s : Sinks) :
    Option (Sinks × Option Nat) :=
  match signalName signum with
  | none => none
  | some signame =>
    let s1 := print_msg (handlerMsg signame signum t) s
    let s2 := flushBoth s1
    if signum ∈ cs then some (s2, none)
    else some (print_msg ("exiting on " ++ signame) s2, some 1)

/-- The registration loop (signaller.py lines 36-37): `for sig in fatal_sigs:
signal.signal(sig, handler)` — the signals the shared handler ends up
installed for, in installation order. -/
def registeredSigs : List Nat := fatal_sigs.foldl (fun acc sig => acc ++ [sig]) []

/-- One iteration of the main loop body (signaller.py lines 41-44):
`print_msg(f"tick {time.time()}")` then the two explicit flushes. -/
def tickStep (s : Sinks) (t : String) : Sinks :=
  flushBoth (print_msg ("tick " ++ t) s)

/-- An observable event once the handler is installed: a heartbeat iteration,
or asynchronous delivery of a signal at time `t`. -/
inductive RunEvent where
  | tick (t : String)
  | deliver (signum : Nat) (t : String)
deriving Repr, DecidableEq

/-- How a run ends in the model. -/
inductive Status where
  | nameError
  | running
  | exited (code : Nat)
  | unmodeled
deriving Repr, DecidableEq

/-- Runs a schedule of events against the sinks. Delivery of a signal for
which no handler was installed is outside the model (default OS action); a
delivery the handler swallows continues with the next event; a delivery the
handler escalates ends the run with the handler's exit status. -/
def runEvents (cs : List Nat) : List RunEvent → Sinks → Sinks × Status
  | [], s => (s, Status.running)
  | RunEvent.tick t :: evs, s => runEvents cs evs (tickStep s t)
  | RunEvent.deliver signum t :: evs, s =>
    if signum ∈ registeredSigs then
      match handlerStep cs signum t s with
      | none => (s, Status.unmodeled)
      | some (s1, none) => runEvents cs evs s1
      | some (s1, some code) => (s1, Status.exited code)
    else (s, Status.unmodeled)

/-- `main(sys.argv)` (signaller.py lines 28-44) as a trace function. `argv`
includes the program name; `window` lists the signals delivered between
handler registration (lines 36-37) and the pid announcement (line 39);
`events` is the schedule from the pid announcement on. A KeyError in the
continue-list comprehension aborts before anything is logged. -/
def mainRun (argv : List String) (pid : Nat) (window : List (Nat × String))
    (events : List RunEvent) : Sinks × Status :=
  match parseContinueSigs (argv.drop 1) with
  | none => (initialSinks, Status.nameError)
  | some cs =>
    let s1 := print_msg ("continue on sigs: " ++ toString cs) initialSinks
    match runEvents cs (window.map (fun p => RunEvent.deliver p.1 p.2)) s1 with
    | (s2, Status.running) =>
      runEvents cs events (print_msg ("my pid is " ++ toString pid) s2)
    | other => other

/-- The whole dual-sink logging discipline of the program: a sequence of
`print_msg` calls starting from the freshly opened sinks. -/
def emitAll (msgs : List String) (s : Sinks) : Sinks :=
  msgs.foldl (fun s m => print_msg m s) s

/- ### Helper lemmas -/

lemma mapOption_eq_none {α β : Type} (f : α → Option β) :
    ∀ (l : List α) (x : α), x ∈ l → f x = none → mapOption f l = none := by
  intro l
  induction l with
  | nil => intro x hx; cases hx
  | cons a l ih =>
    intro x hx hfx
    cases hx with
    | head => simp [mapOption, hfx]
    | tail _ hmem =>
      unfold mapOption
      cases hfa : f a with
      | none => rfl
      | some b => simp [ih x hmem hfx]

lemma print_msg_eq (msg : String) (fs ls : List String) :
    print_msg msg ⟨⟨fs, []⟩, ⟨ls, []⟩⟩ =
      ⟨⟨fs ++ [msgLine msg], []⟩, ⟨ls ++ [msgLine msg], []⟩⟩ := by
  simp [print_msg, Sink.write, Sink.flush]

lemma flushBoth_eq (fs ls : List String) :
    flushBoth ⟨⟨fs, []⟩, ⟨ls, []⟩⟩ = ⟨⟨fs, []⟩, ⟨ls, []⟩⟩ := by
  simp [flushBoth, Sink.flush]

lemma tickStep_eq (fs ls : List String) (t : String) :
    tickStep ⟨⟨fs, []⟩, ⟨ls, []⟩⟩ t =
      ⟨⟨fs ++ [msgLine ("tick " ++ t)], []⟩, ⟨ls ++ [msgLine ("tick " ++ t)], []⟩⟩ := by
  rw [tickStep, print_msg_eq, flushBoth_eq]

lemma handlerStep_eq (cs : List Nat) (signum : Nat) (t : String)
    (fs ls : List String) (nm : String) (hnm : signalName signum = some nm) :
    handlerStep cs signum t ⟨⟨fs, []⟩, ⟨ls, []⟩⟩ =
      if signum ∈ cs then
        some (⟨⟨fs ++ [msgLine (handlerMsg nm signum t)], []⟩,
               ⟨ls ++ [msgLine (handlerMsg nm signum t)], []⟩⟩, none)
      else
        some (⟨⟨fs ++ [msgLine (handlerMsg nm signum t), msgLine ("exiting on " ++ nm)], []⟩,
               ⟨ls ++ [msgLine (handlerMsg nm signum t), msgLine ("exiting on " ++ nm)], []⟩⟩,
              some 1) := by
  rw [handlerStep, hnm]
  simp only [print_msg_eq, flushBoth_eq]
  split
  case isTrue h => rfl
  case isFalse h => simp [List.append_assoc]

lemma handlerStep_mem_congr (cs cs2 : List Nat) (signum : Nat) (t : String)
    (s : Sinks) (h : signum ∈ cs ↔ signum ∈ cs2) :
    handlerStep cs signum t s = handlerStep cs2 signum t s := by
  unfold handlerStep
  cases signalName signum with
  | none => rfl
  | some nm => simp only [h]

lemma registered_hasName :
    ∀ signum ∈ registeredSigs, (signalName signum).isSome = true := by decide

lemma runEvents_extends (cs : List Nat) :
    ∀ (evs : List RunEvent) (fs ls : List String),
      ∃ r, (runEvents cs evs ⟨⟨fs, []⟩, ⟨ls, []⟩⟩).1.stderr = ⟨fs ++ r, []⟩ ∧
           (runEvents cs evs ⟨⟨fs, []⟩, ⟨ls, []⟩⟩).1.log = ⟨ls ++ r, []⟩ := by
  intro evs
  induction evs with
  | nil =>
    intro fs ls
    exact ⟨[], by simp [runEvents], by simp [runEvents]⟩
  | cons ev evs ih =>
    intro fs ls
    cases ev with
    | tick t =>
      obtain ⟨r, h1, h2⟩ :=
        ih (fs ++ [msgLine ("tick " ++ t)]) (ls ++ [msgLine ("tick " ++ t)])
      refine ⟨msgLine ("tick " ++ t) :: r, ?_, ?_⟩ <;>
        simp [runEvents, tickStep_eq, h1, h2]
    | deliver signum t =>
      by_cases hreg : signum ∈ registeredSigs
      · have hname := registered_hasName signum hreg
        obtain ⟨nm, hnm⟩ := Option.isSome_iff_exists.mp hname
        by_cases hmem : signum ∈ cs
        · obtain ⟨r, h1, h2⟩ :=
            ih (fs ++ [msgLine (handlerMsg nm signum t)])
               (ls ++ [msgLine (handlerMsg nm signum t)])
          refine ⟨msgLine (handlerMsg nm signum t) :: r, ?_, ?_⟩ <;>
            simp [runEvents, hreg, handlerStep_eq cs signum t fs ls nm hnm, hmem, h1, h2]
        · refine ⟨[msgLine (handlerMsg nm signum t), msgLine ("exiting on " ++ nm)], ?_, ?_⟩ <;>
            simp [runEvents, hreg, handlerStep_eq cs signum t fs ls nm hnm, hmem]
      · exact ⟨[], by simp [runEvents, hreg], by simp [runEvents, hreg]⟩

lemma emitAll_eq (msgs : List String) :
    ∀ fs ls : List String,
      emitAll msgs ⟨⟨fs, []⟩, ⟨ls, []⟩⟩ =
        ⟨⟨fs ++ msgs.map msgLine, []⟩, ⟨ls ++ msgs.map msgLine, []⟩⟩ := by
  induction msgs with
  | nil => intro fs ls; simp [emitAll]
  | cons m ms ih =>
    intro fs ls
    show emitAll ms (print_msg m ⟨⟨fs, []⟩, ⟨ls, []⟩⟩) = _
    rw [print_msg_eq, ih]
    simp

/- ### Claim theorems -/

/-- Claim C1, counterexample: the argument sequence `[""]` filters to the
empty sequence, yet the continue-on collection the code builds is empty, not
the singleton containing SIGINT: the default is substituted before filtering,
only when the unfiltered argument list is empty. -/
theorem C1_counterexample :
    parseContinueSigs [""] = some [] ∧ some ([] : List Nat) ≠ some [SIGINT] :=
  ⟨rfl, by decide⟩

/-- Claim C1 as amended: when the argument sequence itself is empty the
continue-on collection is exactly the singleton containing SIGINT; when the
sequence is nonempty but every token is the empty string, filtering leaves
nothing and the continue-on collection is empty. -/
theorem C1_default_before_filter :
    parseContinueSigs [] = some [SIGINT] ∧
    ∀ args : List String, args ≠ [] →
      args.filter (fun s => s ≠ "") = [] → parseContinueSigs args = some [] := by
  refine ⟨rfl, ?_⟩
  intro args hne hfilt
  unfold parseContinueSigs
  simp only [ne_eq, decide_not] at hfilt
  simp [if_neg hne, hfilt, mapOption]

/-- Claim C1 witness: the amended statement applied to the concrete sequence
`[""]`. -/
theorem C1_witness : parseContinueSigs [""] = some [] :=
  C1_default_before_filter.2 [""] (by decide) (by rfl)

/-- Claim C2: for every delivered signal number that has a symbolic name, the
handler first logs one line naming the symbolic name, the number and the
wall-clock time; if the number is in the continue-on list the handler returns
normally having logged nothing else, and otherwise it logs an additional
exiting-on line and terminates with exit status 1. Both sinks receive the
identical lines, fully flushed. -/
theorem C2_handler_behavior (cs : List Nat) (signum : Nat) (t : String)
    (fs ls : List String) (nm : String) (hnm : signalName signum = some nm) :
    (signum ∈ cs →
      handlerStep cs signum t ⟨⟨fs, []⟩, ⟨ls, []⟩⟩ =
        some (⟨⟨fs ++ [msgLine (handlerMsg nm signum t)], []⟩,
               ⟨ls ++ [msgLine (handlerMsg nm signum t)], []⟩⟩, none)) ∧
    (signum ∉ cs →
      handlerStep cs signum t ⟨⟨fs, []⟩, ⟨ls, []⟩⟩ =
        some (⟨⟨fs ++ [msgLine (handlerMsg nm signum t), msgLine ("exiting on " ++ nm)], []⟩,
               ⟨ls ++ [msgLine (handlerMsg nm signum t), msgLine ("exiting on " ++ nm)], []⟩⟩,
              some 1)) := by
  constructor <;> intro h <;> rw [handlerStep_eq cs signum t fs ls nm hnm] <;> simp [h]

/-- Claim C2 witness: the handler applied to SIGINT with continue-on list
`[SIGINT]` logs the one line and returns normally. -/
theorem C2_witness :
    handlerStep [SIGINT] SIGINT ("7.5") initialSinks =
      some (⟨⟨[msgLine (handlerMsg ("SIGINT") SIGINT ("7.5"))], []⟩,
             ⟨[msgLine (handlerMsg ("SIGINT") SIGINT ("7.5"))], []⟩⟩, none) :=
  (C2_handler_behavior [SIGINT] SIGINT ("7.5") [] [] ("SIGINT") rfl).1 (by decide)

/-- Claim C3, counterexample: the empty-string token does not match any
signal name in the table, yet the program does not terminate abnormally on
it — the token is filtered out, the run proceeds, and both the continue-set
announcement and a heartbeat line are logged. -/
theorem C3_counterexample :
    signalLookup (strUpper ("")) = none ∧
    (mainRun ["signaller.py", ""] 7 [] [RunEvent.tick ("1.0")]).2 = Status.running ∧
    (mainRun ["signaller.py", ""] 7 [] [RunEvent.tick ("1.0")]).1.stderr.flushed =
      [msgLine ("continue on sigs: " ++ toString ([] : List Nat)),
       msgLine ("my pid is " ++ toString 7),
       msgLine ("tick " ++ "1.0")] :=
  ⟨rfl, rfl, rfl⟩

/-- Claim C3 as amended: for every non-empty argument token whose uppercased
form is not in the signal name table, the parse raises an uncaught lookup
failure, the run aborts with a name error before the continue-on list is
built, and nothing at all is logged to either sink. -/
theorem C3_bad_name_aborts (argv : List String) (pid : Nat)
    (window : List (Nat × String)) (events : List RunEvent) (tok : String)
    (hmem : tok ∈ argv.drop 1) (hne : tok ≠ "")
    (hbad : signalLookup (strUpper tok) = none) :
    parseContinueSigs (argv.drop 1) = none ∧
    mainRun argv pid window events = (initialSinks, Status.nameError) ∧
    initialSinks.stderr.flushed = [] ∧ initialSinks.log.flushed = [] := by
  have hargs : argv.drop 1 ≠ [] := List.ne_nil_of_mem hmem
  have hparse : parseContinueSigs (argv.drop 1) = none := by
    unfold parseContinueSigs
    simp only [if_neg hargs]
    apply mapOption_eq_none _ _ tok _ hbad
    exact List.mem_filter.mpr ⟨hmem, by simpa using hne⟩
  refine ⟨hparse, ?_, rfl, rfl⟩
  unfold mainRun
  rw [hparse]

/-- Claim C3 witness: the unrecognized token `notasignal` aborts the run with
nothing logged. -/
theorem C3_witness :
    parseContinueSigs (["signaller.py", "notasignal"].drop 1) = none ∧
    mainRun ["signaller.py", "notasignal"] 7 [] [RunEvent.tick ("1.0")] =
      (initialSinks, Status.nameError) ∧
    initialSinks.stderr.flushed = [] ∧ initialSinks.log.flushed = [] :=
  C3_bad_name_aborts ["signaller.py", "notasignal"] 7 [] [RunEvent.tick ("1.0")]
    ("notasignal") (by simp) (by decide) rfl

/-- Claim C4: invoked with no arguments the continue-on collection is exactly
`[SIGINT]`; a run in which SIGINT is delivered keeps running (the handler
returns normally), while a run in which SIGTERM is delivered ends with exit
status 1. -/
theorem C4_default_masks_sigint :
    parseContinueSigs [] = some [SIGINT] ∧
    (mainRun ["signaller.py"] 42 []
      [RunEvent.deliver SIGINT ("3.0"), RunEvent.tick ("4.0")]).2 = Status.running ∧
    (mainRun ["signaller.py"] 42 []
      [RunEvent.deliver SIGTERM ("3.0")]).2 = Status.exited 1 :=
  ⟨rfl, rfl, rfl⟩

/-- Claim C5: the argument sequence `["sigint", "SIGTERM", ""]` parses to the
collection `[SIGINT, SIGTERM]` — matching is case-insensitive by uppercasing
and the empty token is dropped — whose members are exactly SIGINT and
SIGTERM. -/
theorem C5_parse_example :
    parseContinueSigs ["sigint", "SIGTERM", ""] = some [SIGINT, SIGTERM] ∧
    ∀ sig : Nat, sig ∈ [SIGINT, SIGTERM] ↔ (sig = SIGINT ∨ sig = SIGTERM) := by
  refine ⟨rfl, ?_⟩
  intro sig
  simp

/-- Claim C6: the fatal-by-default list is exactly the six signals SIGINT,
SIGTERM, SIGQUIT, SIGHUP, SIGPIPE, SIGABRT in that order; the registration
loop installs the shared handler for exactly that list; and the six names
resolve in the signal table to those numbers. -/
theorem C6_fatal_sigs :
    fatal_sigs = [SIGINT, SIGTERM, SIGQUIT, SIGHUP, SIGPIPE, SIGABRT] ∧
    registeredSigs = fatal_sigs ∧
    fatal_sigs.length = 6 ∧
    signalLookup ("SIGINT") = some SIGINT ∧
    signalLookup ("SIGTERM") = some SIGTERM ∧
    signalLookup ("SIGQUIT") = some SIGQUIT ∧
    signalLookup ("SIGHUP") = some SIGHUP ∧
    signalLookup ("SIGPIPE") = some SIGPIPE ∧
    signalLookup ("SIGABRT") = some SIGABRT :=
  ⟨rfl, rfl, rfl, rfl, rfl, rfl, rfl, rfl, rfl⟩

/-- Claim C7: for any sequence of emitted messages, both sinks receive the
identical sequence of newline-terminated lines, each the fixed tag
`signaller: ` followed by the message body, and both write buffers are empty
afterwards (every write is flushed immediately); in particular every line in
the log file has an identical counterpart on standard error. -/
theorem C7_dual_sink_identical (msgs : List String) :
    (emitAll msgs initialSinks).log.flushed = (emitAll msgs initialSinks).stderr.flushed ∧
    (emitAll msgs initialSinks).stderr.flushed =
      msgs.map (fun m => "signaller: " ++ m ++ "\n") ∧
    (emitAll msgs initialSinks).stderr.buffer = [] ∧
    (emitAll msgs initialSinks).log.buffer = [] := by
  have h : emitAll msgs initialSinks =
      ⟨⟨msgs.map msgLine, []⟩, ⟨msgs.map msgLine, []⟩⟩ := by
    have h2 := emitAll_eq msgs [] []
    simpa [initialSinks] using h2
  rw [h]
  simp [msgLine]

/-- Claim C7 witness: the dual-sink invariant at a concrete two-message
emission. -/
theorem C7_witness :
    (emitAll ["a", "b"] initialSinks).log.flushed =
      (emitAll ["a", "b"] initialSinks).stderr.flushed ∧
    (emitAll ["a", "b"] initialSinks).stderr.flushed =
      ["a", "b"].map (fun m => "signaller: " ++ m ++ "\n") ∧
    (emitAll ["a", "b"] initialSinks).stderr.buffer = [] ∧
    (emitAll ["a", "b"] initialSinks).log.buffer = [] :=
  C7_dual_sink_identical ["a", "b"]

/-- Claim C8, counterexample: handlers are installed before the pid line is
printed, so a SIGINT delivered in that window is logged by the handler
between the continue-set announcement and the pid announcement; the run
still reaches the main loop, yet the second emitted line is a
signal-handler line, not the pid announcement. -/
theorem C8_counterexample :
    (mainRun ["signaller.py"] 42 [(SIGINT, "0.5")] [RunEvent.tick ("1.5")]).2 =
      Status.running ∧
    (mainRun ["signaller.py"] 42 [(SIGINT, "0.5")] [RunEvent.tick ("1.5")]).1.stderr.flushed =
      [msgLine ("continue on sigs: " ++ toString [SIGINT]),
       msgLine (handlerMsg ("SIGINT") SIGINT ("0.5")),
       msgLine ("my pid is " ++ toString 42),
       msgLine ("tick " ++ "1.5")] ∧
    msgLine (handlerMsg ("SIGINT") SIGINT ("0.5")) ≠ msgLine ("my pid is " ++ toString 42) :=
  ⟨rfl, rfl, by decide⟩

/-- Claim C8 as amended: in every run whose parse succeeds and in which no
signal is delivered in the window between handler registration and the pid
announcement, the emitted lines on both sinks begin, in order, with the
continue-on-set announcement, then the pid announcement, and every heartbeat
or signal-handler line comes after both. -/
theorem C8_startup_order (argv : List String) (pid : Nat)
    (events : List RunEvent) (cs : List Nat)
    (h : parseContinueSigs (argv.drop 1) = some cs) :
    ∃ rest,
      (mainRun argv pid [] events).1.stderr.flushed =
        msgLine ("continue on sigs: " ++ toString cs) ::
          msgLine ("my pid is " ++ toString pid) :: rest ∧
      (mainRun argv pid [] events).1.log.flushed =
        msgLine ("continue on sigs: " ++ toString cs) ::
          msgLine ("my pid is " ++ toString pid) :: rest := by
  have hmain : mainRun argv pid [] events =
      runEvents cs events
        ⟨⟨[msgLine ("continue on sigs: " ++ toString cs),
           msgLine ("my pid is " ++ toString pid)], []⟩,
         ⟨[msgLine ("continue on sigs: " ++ toString cs),
           msgLine ("my pid is " ++ toString pid)], []⟩⟩ := by
    unfold mainRun
    rw [h]
    rfl
  obtain ⟨r, h1, h2⟩ := runEvents_extends cs events
    [msgLine ("continue on sigs: " ++ toString cs), msgLine ("my pid is " ++ toString pid)]
    [msgLine ("continue on sigs: " ++ toString cs), msgLine ("my pid is " ++ toString pid)]
  refine ⟨r, ?_, ?_⟩
  · rw [hmain, h1]
    simp
  · rw [hmain, h2]
    simp

/-- Claim C8 witness: the amended startup ordering at a concrete run with no
window delivery and one heartbeat. -/
theorem C8_witness :
    ∃ rest,
      (mainRun ["signaller.py"] 42 [] [RunEvent.tick ("1.0")]).1.stderr.flushed =
        msgLine ("continue on sigs: " ++ toString [SIGINT]) ::
          msgLine ("my pid is " ++ toString 42) :: rest ∧
      (mainRun ["signaller.py"] 42 [] [RunEvent.tick ("1.0")]).1.log.flushed =
        msgLine ("continue on sigs: " ++ toString [SIGINT]) ::
          msgLine ("my pid is " ++ toString 42) :: rest :=
  C8_startup_order ["signaller.py"] 42 [RunEvent.tick ("1.0")] [SIGINT] rfl

/-- Claim C9, counterexample: the continue-on collection is a Python list
built by a comprehension, not a set — duplicate names for the same signal
survive, so parsing `["SIGINT", "sigint"]` yields a collection holding the
SIGINT identifier twice, not once. -/
theorem C9_counterexample :
    parseContinueSigs ["SIGINT", "sigint"] = some [SIGINT, SIGINT] ∧
    ¬ (([SIGINT, SIGINT] : List Nat).count SIGINT = 1) :=
  ⟨rfl, by decide⟩

/-- Claim C9 as amended: duplicate tokens naming the same signal are kept in
the continue-on collection (it is a list, not a set); the handler only ever
tests membership, so two continue-on collections with the same members give
the handler identical behaviour. -/
theorem C9_membership_only :
    parseContinueSigs ["SIGINT", "sigint"] = some [SIGINT, SIGINT] ∧
    ∀ (cs cs2 : List Nat) (signum : Nat) (t : String) (s : Sinks),
      (signum ∈ cs ↔ signum ∈ cs2) →
      handlerStep cs signum t s = handlerStep cs2 signum t s :=
  ⟨rfl, fun cs cs2 signum t s h => handlerStep_mem_congr cs cs2 signum t s h⟩

/-- Claim C9 witness: the duplicated collection `[SIGINT, SIGINT]` drives the
handler exactly as `[SIGINT]` does. -/
theorem C9_witness :
    handlerStep [SIGINT, SIGINT] SIGINT ("1.0") initialSinks =
      handlerStep [SIGINT] SIGINT ("1.0") initialSinks :=
  C9_membership_only.2 [SIGINT, SIGINT] [SIGINT] SIGINT ("1.0") initialSinks (by decide)

/-- Claim C10: the parser accepts any name in the signal table, not only the
six fatal-by-default ones — `["SIGUSR1"]` parses without error — yet SIGUSR1
is never registered, and for every registered signal the handler behaves
identically whether or not SIGUSR1 is in the continue-on collection. -/
theorem C10_extra_members_inert (signum : Nat) (hreg : signum ∈ registeredSigs)
    (cs : List Nat) (t : String) (s : Sinks) :
    parseContinueSigs ["SIGUSR1"] = some [SIGUSR1] ∧
    SIGUSR1 ∉ registeredSigs ∧
    handlerStep (cs ++ [SIGUSR1]) signum t s = handlerStep cs signum t s := by
  refine ⟨rfl, by decide, ?_⟩
  apply handlerStep_mem_congr
  have hne : signum ≠ SIGUSR1 := by
    intro he
    rw [he] at hreg
    exact absurd hreg (by decide)
  simp [List.mem_append, hne]

/-- Claim C10 witness: SIGUSR1 added to the continue-on collection leaves the
handling of a delivered SIGINT unchanged. -/
theorem C10_witness :
    parseContinueSigs ["SIGUSR1"] = some [SIGUSR1] ∧
    SIGUSR1 ∉ registeredSigs ∧
    handlerStep ([SIGTERM] ++ [SIGUSR1]) SIGINT ("2.0") initialSinks =
      handlerStep [SIGTERM] SIGINT ("2.0") initialSinks :=
  C10_extra_members_inert SIGINT (by decide) [SIGTERM] ("2.0") initialSinks

end Signaller
